import Mathlib

/-!
Verification of the request/response data-mapping and validation layer of the
clarifai Go client (`requests.go`).

The embedding mirrors the Go source:
* a Go `[]string` slice is `Option (List String)` (`none` is the nil slice,
  which Go distinguishes from a non-nil empty slice);
* JSON wire values are the `Json` inductive; numeric literals are kept as
  their decimal text, exactly as `encoding/json` hands them to
  `big.Int.UnmarshalJSON` / `json.Number`;
* `json.Marshal` of each request struct (with its field tags, including
  `omitempty`) and `json.Unmarshal` into each response struct are modelled
  field by field;
* the HTTP transport (`Client.commonHTTPRequest`, defined outside this layer)
  is an external collaborator, passed in as a function; each operation also
  returns the list of transport calls it performed.
-/

namespace Clarifai

/-- A Go `[]string`: `none` is the nil slice, `some l` a non-nil slice with
elements `l`.  Go's `len` is 0 on both `none` and `some []`, but `== nil`
holds only on `none`. -/
abbrev GoSlice := Option (List String)

/-- Go `len` on a string slice. -/
def sliceLen : GoSlice → Nat
  | none => 0
  | some l => l.length

/-- JSON wire values.  A number is kept as its decimal literal text, which is
what `encoding/json` passes to `big.Int.UnmarshalJSON` and what a
`json.Number` stores. -/
inductive Json where
  | null
  | bool (b : Bool)
  | num (lit : String)
  | str (s : String)
  | arr (elems : List Json)
  | obj (fields : List (String × Json))

/-- The keys of a JSON object (empty for non-objects). -/
def Json.keys : Json → List String
  | .obj fs => fs.map Prod.fst
  | _ => []

/-- ASCII-fold a key, as `encoding/json`'s case-insensitive field match does. -/
def keyFold (s : String) : String := ⟨s.data.map Char.toLower⟩

/-- Look up a key in a decoded object the way `encoding/json` matches struct
fields: an exact match is preferred, otherwise a case-insensitive match. -/
def lookupField (fs : List (String × Json)) (key : String) : Option Json :=
  match fs.find? (fun p => p.1 = key) with
  | some p => some p.2
  | none =>
    match fs.find? (fun p => keyFold p.1 = keyFold key) with
    | some p => some p.2
    | none => none

/-! ### Decimal literals

`big.Int` stores an arbitrary-precision integer; its JSON decoding parses the
decimal literal exactly and its `String` method prints it back.  We model the
printed form of a natural number via `Nat.digits` and the parse as a
left-to-right fold, and prove the round trip. -/

/-- The ASCII character of a single decimal digit. -/
def digitToChar (d : Nat) : Char := Char.ofNat (d + 48)

/-- The numeric value of an ASCII decimal digit, `none` on other characters. -/
def digitVal (c : Char) : Option Nat :=
  if c.isDigit then some (c.toNat - 48) else none

/-- Decimal text of a natural number, most significant digit first
(`Nat.digits` is least-significant first). -/
def natRepr (n : Nat) : String :=
  if n = 0 then "0" else ⟨((Nat.digits 10 n).map digitToChar).reverse⟩

/-- Decimal text of an integer, as `big.Int.String` prints it. -/
def intRepr (i : Int) : String :=
  if i < 0 then "-" ++ natRepr (-i).toNat else natRepr i.toNat

/-- Left-to-right accumulation of decimal digits. -/
def parseDigitsAux (acc : Nat) : List Char → Option Nat
  | [] => some acc
  | c :: cs =>
    match digitVal c with
    | none => none
    | some d => parseDigitsAux (10 * acc + d) cs

/-- Parse a non-empty all-digit character list. -/
def parseNatList : List Char → Option Nat
  | [] => none
  | c :: cs => parseDigitsAux 0 (c :: cs)

/-- Parse a decimal integer literal with optional leading minus sign, as
`big.Int.SetString` does on the literal `encoding/json` hands over. -/
def parseInt (s : String) : Option Int :=
  match s.data with
  | [] => none
  | c :: cs =>
    if c = '-' then (parseNatList cs).map (fun n => -(n : Int))
    else (parseNatList (c :: cs)).map (fun n => (n : Int))

theorem digitVal_digitToChar {d : Nat} (hd : d < 10) :
    digitVal (digitToChar d) = some d := by
  interval_cases d <;> decide

theorem digitToChar_ne_minus {d : Nat} (hd : d < 10) : digitToChar d ≠ '-' := by
  interval_cases d <;> decide

theorem parseDigitsAux_append (acc : Nat) (l₁ l₂ : List Char) :
    parseDigitsAux acc (l₁ ++ l₂) =
      (parseDigitsAux acc l₁).bind (fun a => parseDigitsAux a l₂) := by
  induction l₁ generalizing acc with
  | nil => rfl
  | cons c cs ih =>
    simp only [List.cons_append, parseDigitsAux]
    cases digitVal c with
    | none => rfl
    | some d => exact ih _

theorem parseDigitsAux_digits (ds : List Nat) (hds : ∀ d ∈ ds, d < 10) :
    ∀ acc : Nat, parseDigitsAux acc ((ds.map digitToChar).reverse) =
      some (acc * 10 ^ ds.length + Nat.ofDigits 10 ds) := by
  induction ds with
  | nil => intro acc; simp [parseDigitsAux, Nat.ofDigits]
  | cons d ds ih =>
    intro acc
    have hd : d < 10 := hds d (List.mem_cons_self d ds)
    have hds' : ∀ x ∈ ds, x < 10 := fun x hx => hds x (List.mem_cons_of_mem d hx)
    simp only [List.map_cons, List.reverse_cons, parseDigitsAux_append, ih hds']
    simp [parseDigitsAux, digitVal_digitToChar hd, Nat.ofDigits_cons, List.length_cons]
    ring

theorem parseNatList_natRepr (n : Nat) : parseNatList (natRepr n).data = some n := by
  by_cases h : n = 0
  · subst h; decide
  · have hne : Nat.digits 10 n ≠ [] := Nat.digits_ne_nil_iff_ne_zero.mpr h
    have hlt : ∀ d ∈ Nat.digits 10 n, d < 10 :=
      fun d hd => Nat.digits_lt_base (by norm_num) hd
    have hmain := parseDigitsAux_digits (Nat.digits 10 n) hlt 0
    have hdata : (natRepr n).data = ((Nat.digits 10 n).map digitToChar).reverse := by
      simp [natRepr, h]
    rw [hdata]
    cases hrev : ((Nat.digits 10 n).map digitToChar).reverse with
    | nil =>
      exfalso
      apply hne
      have := congrArg List.length hrev
      simp at this
      exact this
    | cons c cs =>
      rw [hrev] at hmain
      simpa [parseNatList, Nat.ofDigits_digits, hrev] using hmain

theorem parseInt_natRepr (n : Nat) (hn : 0 < n) :
    parseInt ⟨(natRepr n).data⟩ = some (n : Int) := by
  have hne : Nat.digits 10 n ≠ [] :=
    Nat.digits_ne_nil_iff_ne_zero.mpr (Nat.pos_iff_ne_zero.mp hn)
  have hdata : (natRepr n).data = ((Nat.digits 10 n).map digitToChar).reverse := by
    simp [natRepr, Nat.pos_iff_ne_zero.mp hn]
  have hparse := parseNatList_natRepr n
  rw [hdata] at hparse ⊢
  cases hrev : ((Nat.digits 10 n).map digitToChar).reverse with
  | nil =>
    exfalso
    apply hne
    have := congrArg List.length hrev
    simp at this
    exact this
  | cons c cs =>
    rw [hrev] at hparse
    have hc : ∃ d, d < 10 ∧ c = digitToChar d := by
      have : c ∈ ((Nat.digits 10 n).map digitToChar).reverse := by
        rw [hrev]; exact List.mem_cons_self c cs
      rw [List.mem_reverse, List.mem_map] at this
      obtain ⟨d, hd, hdc⟩ := this
      exact ⟨d, Nat.digits_lt_base (by norm_num) hd, hdc.symm⟩
    obtain ⟨d, hd10, rfl⟩ := hc
    simp [parseInt, digitToChar_ne_minus hd10, hparse]

/-! ### Request types and `json.Marshal` (requests.go lines 29-34, 67-71, 95-104)

`json.Marshal` emits struct fields in declaration order under their tag
names; a field tagged `omitempty` is dropped entirely when its value is empty
(nil or zero-length slice, empty string).  An untagged-for-`omitempty` nil
slice is emitted as `null`. -/

/-- `TagRequest` (requests.go:30-34): `url`, `local_ids,omitempty`,
`model,omitempty`. -/
structure TagRequest where
  URLs : GoSlice
  LocalIDs : GoSlice
  Model : String
deriving DecidableEq

/-- `ColorRequest` (requests.go:68-71): `url`, `local_ids,omitempty`. -/
structure ColorRequest where
  URLs : GoSlice
  LocalIDs : GoSlice
deriving DecidableEq

/-- `FeedbackForm` (requests.go:96-104): every field tagged `omitempty`. -/
structure FeedbackForm where
  DocIDs : GoSlice
  URLs : GoSlice
  AddTags : GoSlice
  RemoveTags : GoSlice
  DissimilarDocIDs : GoSlice
  SimilarDocIDs : GoSlice
  SearchClick : GoSlice
deriving DecidableEq

/-- `json.Marshal` of a `[]string`: nil marshals to `null`. -/
def marshalStringSlice : GoSlice → Json
  | none => Json.null
  | some l => Json.arr (l.map Json.str)

/-- A slice field tagged `omitempty`: dropped when `len` is 0. -/
def omitemptySliceField (key : String) (s : GoSlice) : List (String × Json) :=
  if sliceLen s = 0 then [] else [(key, marshalStringSlice s)]

/-- A string field tagged `omitempty`: dropped when empty. -/
def omitemptyStringField (key : String) (v : String) : List (String × Json) :=
  if v = "" then [] else [(key, Json.str v)]

def TagRequest.marshal (r : TagRequest) : Json :=
  Json.obj ([("url", marshalStringSlice r.URLs)]
    ++ omitemptySliceField "local_ids" r.LocalIDs
    ++ omitemptyStringField "model" r.Model)

def ColorRequest.marshal (r : ColorRequest) : Json :=
  Json.obj ([("url", marshalStringSlice r.URLs)]
    ++ omitemptySliceField "local_ids" r.LocalIDs)

def FeedbackForm.marshal (f : FeedbackForm) : Json :=
  Json.obj (omitemptySliceField "docids" f.DocIDs
    ++ omitemptySliceField "url" f.URLs
    ++ omitemptySliceField "add_tags" f.AddTags
    ++ omitemptySliceField "remove_tags" f.RemoveTags
    ++ omitemptySliceField "dissimilar_docids" f.DissimilarDocIDs
    ++ omitemptySliceField "similar_docids" f.SimilarDocIDs
    ++ omitemptySliceField "search_click" f.SearchClick)

/-! ### Response types (requests.go lines 9-27, 36-65, 73-93, 106-110)

Go names are kept; structs that are anonymous in the source get derived
names.  `float32`/`float64` fields keep the undecoded decimal literal (IEEE
rounding is outside this model); `json.Number` is its literal string;
`*big.Int` is `Option Int` (`none` is the nil pointer). -/

/-- A Go float field, holding the wire literal; the zero value prints `0`. -/
structure GoFloat where
  lit : String
deriving DecidableEq

def GoFloat.zero : GoFloat := ⟨"0"⟩

/-- The anonymous `Results` struct of `InfoResp` (requests.go:13-26). -/
structure InfoResults where
  MaxImageSize : Int
  DefaultLanguage : String
  MaxVideoSize : Int
  MaxImageBytes : Int
  DefaultModel : String
  MaxVideoBytes : Int
  MaxVideoDuration : Int
  MaxVideoBatchSize : Int
  MinVideoSize : Int
  MinImageSize : Int
  MaxBatchSize : Int
  APIVersion : GoFloat
deriving DecidableEq

def InfoResults.zero : InfoResults := ⟨0, "", 0, 0, "", 0, 0, 0, 0, 0, 0, GoFloat.zero⟩

/-- `InfoResp` (requests.go:10-27). The `Results` field carries no json tag,
so its wire key is the field name `Results` (matched case-insensitively). -/
structure InfoResp where
  StatusCode : String
  StatusMessage : String
  Results : InfoResults
deriving DecidableEq

def InfoResp.zero : InfoResp := ⟨"", "", InfoResults.zero⟩

/-- The anonymous `Meta.Tag` struct of `TagResp` (requests.go:41-45);
`Timestamp` is a `json.Number`, i.e. the stored literal. -/
structure TagMetaTag where
  Timestamp : String
  Model : String
  Config : String
deriving DecidableEq

def TagMetaTag.zero : TagMetaTag := ⟨"", "", ""⟩

/-- The anonymous `Meta` struct of `TagResp` (requests.go:40-46). -/
structure TagMeta where
  Tag : TagMetaTag
deriving DecidableEq

def TagMeta.zero : TagMeta := ⟨TagMetaTag.zero⟩

/-- The anonymous `Result.Tag` struct of `TagResult` (requests.go:58-62). -/
structure TagResultTag where
  Classes : GoSlice
  CatIDs : GoSlice
  Probs : Option (List GoFloat)
deriving DecidableEq

def TagResultTag.zero : TagResultTag := ⟨none, none, none⟩

/-- The anonymous `Result` struct of `TagResult` (requests.go:57-63). -/
structure TagResultResult where
  Tag : TagResultTag
deriving DecidableEq

def TagResultResult.zero : TagResultResult := ⟨TagResultTag.zero⟩

/-- `TagResult` (requests.go:51-65); `DocID` is a `*big.Int`. -/
structure TagResult where
  DocID : Option Int
  URL : String
  StatusCode : String
  StatusMessage : String
  LocalID : String
  Result : TagResultResult
  DocIDString : String
deriving DecidableEq

def TagResult.zero : TagResult := ⟨none, "", "", "", "", TagResultResult.zero, ""⟩

/-- `TagResp` (requests.go:37-48). -/
structure TagResp where
  StatusCode : String
  StatusMessage : String
  Meta : TagMeta
  Results : Option (List TagResult)
deriving DecidableEq

def TagResp.zero : TagResp := ⟨"", "", TagMeta.zero, none⟩

/-- The anonymous `W3C` struct of `Color` (requests.go:87-90). -/
structure ColorW3C where
  Hex : String
  Name : String
deriving DecidableEq

def ColorW3C.zero : ColorW3C := ⟨"", ""⟩

/-- `Color` (requests.go:86-93). -/
structure Color where
  W3C : ColorW3C
  Hex : String
  Density : GoFloat
deriving DecidableEq

def Color.zero : Color := ⟨ColorW3C.zero, "", GoFloat.zero⟩

/-- The anonymous element struct of `ColorResp.Results` (requests.go:77-82). -/
structure ColorRespResult where
  DocID : Option Int
  URL : String
  DocIDString : String
  Colors : Option (List Color)
deriving DecidableEq

def ColorRespResult.zero : ColorRespResult := ⟨none, "", "", none⟩

/-- `ColorResp` (requests.go:74-83). -/
structure ColorResp where
  StatusCode : String
  StatusMessage : String
  Results : Option (List ColorRespResult)
deriving DecidableEq

def ColorResp.zero : ColorResp := ⟨"", "", none⟩

/-- `FeedbackResp` (requests.go:107-110). -/
structure FeedbackResp where
  StatusCode : String
  StatusMessage : String
deriving DecidableEq

def FeedbackResp.zero : FeedbackResp := ⟨"", ""⟩

/-! ### `json.Unmarshal`

Each decoder yields the decoded value together with the first error
encountered (Go's decoder records the first error and keeps filling fields;
a missing key leaves the field at its zero value; JSON `null` has no effect
on the target and is not an error). -/

/-- First error among the per-field outcomes. -/
def firstErr : List (Option String) → Option String
  | [] => none
  | some e :: _ => some e
  | none :: rest => firstErr rest

/-- Unmarshal into a Go `string` field. -/
def decGoString : Json → String × Option String
  | .str s => (s, none)
  | .null => ("", none)
  | _ => ("", some "cannot unmarshal value into Go string")

/-- Unmarshal into a Go `int` field: integer literals only. -/
def decGoInt : Json → Int × Option String
  | .num lit =>
    match parseInt lit with
    | some n => (n, none)
    | none => (0, some "invalid integer literal")
  | .null => (0, none)
  | _ => (0, some "cannot unmarshal value into Go int")

/-- Unmarshal into a Go float field: the literal is kept. -/
def decGoFloat : Json → GoFloat × Option String
  | .num lit => (⟨lit⟩, none)
  | .null => (GoFloat.zero, none)
  | _ => (GoFloat.zero, some "cannot unmarshal value into Go float")

/-- Unmarshal into a `json.Number` field: the literal is kept. -/
def decJsonNumber : Json → String × Option String
  | .num lit => (lit, none)
  | .null => ("", none)
  | _ => ("", some "cannot unmarshal value into json.Number")

/-- Unmarshal into a `*big.Int` field: `big.Int.UnmarshalJSON` parses the
decimal literal with arbitrary precision; `null` leaves the nil pointer. -/
def decBigIntPtr : Json → Option Int × Option String
  | .num lit =>
    match parseInt lit with
    | some n => (some n, none)
    | none => (none, some "invalid big integer literal")
  | .null => (none, none)
  | _ => (none, some "cannot unmarshal value into *big.Int")

/-- Unmarshal into a `[]string` field. -/
def decStringSlice : Json → GoSlice × Option String
  | .null => (none, none)
  | .arr es =>
    let rs := es.map decGoString
    (some (rs.map Prod.fst), firstErr (rs.map Prod.snd))
  | _ => (none, some "cannot unmarshal value into []string")

/-- Unmarshal into a `[]float32` field. -/
def decFloatSlice : Json → Option (List GoFloat) × Option String
  | .null => (none, none)
  | .arr es =>
    let rs := es.map decGoFloat
    (some (rs.map Prod.fst), firstErr (rs.map Prod.snd))
  | _ => (none, some "cannot unmarshal value into []float32")

/-- Decode one struct field: a missing key leaves the zero value. -/
def decField {α : Type} (fs : List (String × Json)) (key : String) (zero : α)
    (dec : Json → α × Option String) : α × Option String :=
  match lookupField fs key with
  | none => (zero, none)
  | some v => dec v

def decInfoResults : Json → InfoResults × Option String
  | .obj fs =>
    let f01 := decField fs "max_image_size" 0 decGoInt
    let f02 := decField fs "default_language" "" decGoString
    let f03 := decField fs "max_video_size" 0 decGoInt
    let f04 := decField fs "max_image_bytes" 0 decGoInt
    let f05 := decField fs "default_model" "" decGoString
    let f06 := decField fs "max_video_bytes" 0 decGoInt
    let f07 := decField fs "max_video_duration" 0 decGoInt
    let f08 := decField fs "max_video_batch_size" 0 decGoInt
    let f09 := decField fs "min_video_size" 0 decGoInt
    let f10 := decField fs "min_image_size" 0 decGoInt
    let f11 := decField fs "max_batch_size" 0 decGoInt
    let f12 := decField fs "api_version" GoFloat.zero decGoFloat
    (⟨f01.1, f02.1, f03.1, f04.1, f05.1, f06.1, f07.1, f08.1, f09.1, f10.1,
      f11.1, f12.1⟩,
     firstErr [f01.2, f02.2, f03.2, f04.2, f05.2, f06.2, f07.2, f08.2, f09.2,
      f10.2, f11.2, f12.2])
  | .null => (InfoResults.zero, none)
  | _ => (InfoResults.zero, some "cannot unmarshal value into Go struct")

def decInfoResp : Json → InfoResp × Option String
  | .obj fs =>
    let sc := decField fs "status_code" "" decGoString
    let sm := decField fs "status_msg" "" decGoString
    let rs := decField fs "Results" InfoResults.zero decInfoResults
    (⟨sc.1, sm.1, rs.1⟩, firstErr [sc.2, sm.2, rs.2])
  | .null => (InfoResp.zero, none)
  | _ => (InfoResp.zero, some "cannot unmarshal value into InfoResp")

def decTagMetaTag : Json → TagMetaTag × Option String
  | .obj fs =>
    let ts := decField fs "timestamp" "" decJsonNumber
    let md := decField fs "model" "" decGoString
    let cf := decField fs "config" "" decGoString
    (⟨ts.1, md.1, cf.1⟩, firstErr [ts.2, md.2, cf.2])
  | .null => (TagMetaTag.zero, none)
  | _ => (TagMetaTag.zero, some "cannot unmarshal value into Go struct")

def decTagMeta : Json → TagMeta × Option String
  | .obj fs =>
    let tg := decField fs "tag" TagMetaTag.zero decTagMetaTag
    (⟨tg.1⟩, tg.2)
  | .null => (TagMeta.zero, none)
  | _ => (TagMeta.zero, some "cannot unmarshal value into Go struct")

def decTagResultTag : Json → TagResultTag × Option String
  | .obj fs =>
    let cl := decField fs "classes" none decStringSlice
    let ci := decField fs "catids" none decStringSlice
    let pr := decField fs "probs" none decFloatSlice
    (⟨cl.1, ci.1, pr.1⟩, firstErr [cl.2, ci.2, pr.2])
  | .null => (TagResultTag.zero, none)
  | _ => (TagResultTag.zero, some "cannot unmarshal value into Go struct")

def decTagResultResult : Json → TagResultResult × Option String
  | .obj fs =>
    let tg := decField fs "tag" TagResultTag.zero decTagResultTag
    (⟨tg.1⟩, tg.2)
  | .null => (TagResultResult.zero, none)
  | _ => (TagResultResult.zero, some "cannot unmarshal value into Go struct")

def decTagResult : Json → TagResult × Option String
  | .obj fs =>
    let di := decField fs "docid" none decBigIntPtr
    let ur := decField fs "url" "" decGoString
    let sc := decField fs "status_code" "" decGoString
    let sm := decField fs "status_msg" "" decGoString
    let li := decField fs "local_id" "" decGoString
    let re := decField fs "result" TagResultResult.zero decTagResultResult
    let ds := decField fs "docid_str" "" decGoString
    (⟨di.1, ur.1, sc.1, sm.1, li.1, re.1, ds.1⟩,
     firstErr [di.2, ur.2, sc.2, sm.2, li.2, re.2, ds.2])
  | .null => (TagResult.zero, none)
  | _ => (TagResult.zero, some "cannot unmarshal value into TagResult")

def decTagResultList : Json → Option (List TagResult) × Option String
  | .null => (none, none)
  | .arr es =>
    let rs := es.map decTagResult
    (some (rs.map Prod.fst), firstErr (rs.map Prod.snd))
  | _ => (none, some "cannot unmarshal value into []TagResult")

def decTagResp : Json → TagResp × Option String
  | .obj fs =>
    let sc := decField fs "status_code" "" decGoString
    let sm := decField fs "status_msg" "" decGoString
    let mt := decField fs "meta" TagMeta.zero decTagMeta
    let rs := decField fs "results" none decTagResultList
    (⟨sc.1, sm.1, mt.1, rs.1⟩, firstErr [sc.2, sm.2, mt.2, rs.2])
  | .null => (TagResp.zero, none)
  | _ => (TagResp.zero, some "cannot unmarshal value into TagResp")

def decColorW3C : Json → ColorW3C × Option String
  | .obj fs =>
    let hx := decField fs "hex" "" decGoString
    let nm := decField fs "name" "" decGoString
    (⟨hx.1, nm.1⟩, firstErr [hx.2, nm.2])
  | .null => (ColorW3C.zero, none)
  | _ => (ColorW3C.zero, some "cannot unmarshal value into Go struct")

def decColor : Json → Color × Option String
  | .obj fs =>
    let w3 := decField fs "w3c" ColorW3C.zero decColorW3C
    let hx := decField fs "hex" "" decGoString
    let dn := decField fs "density" GoFloat.zero decGoFloat
    (⟨w3.1, hx.1, dn.1⟩, firstErr [w3.2, hx.2, dn.2])
  | .null => (Color.zero, none)
  | _ => (Color.zero, some "cannot unmarshal value into Color")

def decColorList : Json → Option (List Color) × Option String
  | .null => (none, none)
  | .arr es =>
    let rs := es.map decColor
    (some (rs.map Prod.fst), firstErr (rs.map Prod.snd))
  | _ => (none, some "cannot unmarshal value into []Color")

def decColorRespResult : Json → ColorRespResult × Option String
  | .obj fs =>
    let di := decField fs "docid" none decBigIntPtr
    let ur := decField fs "url" "" decGoString
    let ds := decField fs "docid_str" "" decGoString
    let co := decField fs "colors" none decColorList
    (⟨di.1, ur.1, ds.1, co.1⟩, firstErr [di.2, ur.2, ds.2, co.2])
  | .null => (ColorRespResult.zero, none)
  | _ => (ColorRespResult.zero, some "cannot unmarshal value into Go struct")

def decColorRespResultList : Json → Option (List ColorRespResult) × Option String
  | .null => (none, none)
  | .arr es =>
    let rs := es.map decColorRespResult
    (some (rs.map Prod.fst), firstErr (rs.map Prod.snd))
  | _ => (none, some "cannot unmarshal value into results slice")

def decColorResp : Json → ColorResp × Option String
  | .obj fs =>
    let sc := decField fs "status_code" "" decGoString
    let sm := decField fs "status_msg" "" decGoString
    let rs := decField fs "results" none decColorRespResultList
    (⟨sc.1, sm.1, rs.1⟩, firstErr [sc.2, sm.2, rs.2])
  | .null => (ColorResp.zero, none)
  | _ => (ColorResp.zero, some "cannot unmarshal value into ColorResp")

def decFeedbackResp : Json → FeedbackResp × Option String
  | .obj fs =>
    let sc := decField fs "status_code" "" decGoString
    let sm := decField fs "status_msg" "" decGoString
    (⟨sc.1, sm.1⟩, firstErr [sc.2, sm.2])
  | .null => (FeedbackResp.zero, none)
  | _ => (FeedbackResp.zero, some "cannot unmarshal value into FeedbackResp")

/-- `json.Unmarshal` into a `TagRequest` (for the wire round trip). -/
def decTagRequest : Json → TagRequest × Option String
  | .obj fs =>
    let ur := decField fs "url" none decStringSlice
    let li := decField fs "local_ids" none decStringSlice
    let md := decField fs "model" "" decGoString
    (⟨ur.1, li.1, md.1⟩, firstErr [ur.2, li.2, md.2])
  | .null => (⟨none, none, ""⟩, none)
  | _ => (⟨none, none, ""⟩, some "cannot unmarshal value into TagRequest")

/-- Raw transport bytes: either not well-formed JSON (empty or nil bytes
included) or a parsed JSON document. -/
inductive Raw where
  | invalid
  | json (j : Json)

def unmarshalInfoResp : Raw → InfoResp × Option String
  | .invalid => (InfoResp.zero, some "unexpected end of JSON input")
  | .json j => decInfoResp j

def unmarshalTagResp : Raw → TagResp × Option String
  | .invalid => (TagResp.zero, some "unexpected end of JSON input")
  | .json j => decTagResp j

def unmarshalColorResp : Raw → ColorResp × Option String
  | .invalid => (ColorResp.zero, some "unexpected end of JSON input")
  | .json j => decColorResp j

def unmarshalFeedbackResp : Raw → FeedbackResp × Option String
  | .invalid => (FeedbackResp.zero, some "unexpected end of JSON input")
  | .json j => decFeedbackResp j

def unmarshalTagRequest : Raw → TagRequest × Option String
  | .invalid => (⟨none, none, ""⟩, some "unexpected end of JSON input")
  | .json j => decTagRequest j

/-! ### The operation façade (requests.go lines 112-179)

The `Client` value only feeds `commonHTTPRequest`, which lives outside this
layer (clarifai.go); the collaborator is therefore passed in as a function,
and each operation additionally reports the transport calls it made. -/

/-- A Go `error` value of this layer: an opaque transport failure, one of the
`errors.New` validation messages of requests.go, or a `json.Unmarshal`
failure. -/
inductive GoErr where
  | transport (msg : String)
  | validation (msg : String)
  | decoding (msg : String)
deriving DecidableEq

/-- One invocation of `Client.commonHTTPRequest`: serialized body (absent for
Info), logical endpoint, HTTP method, multipart flag. -/
structure TransportCall where
  body : Option Json
  endpoint : String
  method : String
  multipart : Bool

/-- What `commonHTTPRequest` hands back: raw bytes and an error value. -/
structure TransportOutcome where
  res : Raw
  err : Option GoErr

/-- The transport collaborator. -/
def TransportFn := TransportCall → TransportOutcome

/-- A Go `(resp *T, err error)` return, plus the transport calls performed:
`none` in the first component is Go's nil response pointer. -/
def OpResult (T : Type) := (Option T × Option GoErr) × List TransportCall

/-- The argument list of `commonHTTPRequest(nil, "info", "GET", false)`. -/
def infoCall : TransportCall := ⟨none, "info", "GET", false⟩

/-- The argument list of `commonHTTPRequest(req, "tag", "POST", false)`. -/
def tagCall (req : TagRequest) : TransportCall := ⟨some req.marshal, "tag", "POST", false⟩

/-- The argument list of `commonHTTPRequest(req, "color", "POST", false)`. -/
def colorCall (req : ColorRequest) : TransportCall := ⟨some req.marshal, "color", "POST", false⟩

/-- The argument list of `commonHTTPRequest(form, "feedback", "POST", false)`. -/
def feedbackCall (form : FeedbackForm) : TransportCall := ⟨some form.marshal, "feedback", "POST", false⟩

/-- `Client.Info` (requests.go:113-124). -/
def Client.Info (transport : TransportFn) : OpResult InfoResp :=
  let out := transport infoCall
  match out.err with
  | some e => ((none, some e), [infoCall])
  | none =>
    let d := unmarshalInfoResp out.res
    ((some d.1, d.2.map GoErr.decoding), [infoCall])

/-- `Client.Tag` (requests.go:127-142). -/
def Client.Tag (req : TagRequest) (transport : TransportFn) : OpResult TagResp :=
  if sliceLen req.URLs < 1 then
    ((none, some (GoErr.validation "Requires at least one url")), [])
  else
    let out := transport (tagCall req)
    match out.err with
    | some e => ((none, some e), [tagCall req])
    | none =>
      let d := unmarshalTagResp out.res
      ((some d.1, d.2.map GoErr.decoding), [tagCall req])

/-- `Client.Color` (requests.go:145-160). -/
def Client.Color (req : ColorRequest) (transport : TransportFn) : OpResult ColorResp :=
  if sliceLen req.URLs < 1 then
    ((none, some (GoErr.validation "Requires at least one url")), [])
  else
    let out := transport (colorCall req)
    match out.err with
    | some e => ((none, some e), [colorCall req])
    | none =>
      let d := unmarshalColorResp out.res
      ((some d.1, d.2.map GoErr.decoding), [colorCall req])

/-- `Client.Feedback` (requests.go:163-179).  The nil checks mirror the Go
`== nil` / `!= nil` tests, and — exactly as in the source — the transport
error is never inspected: the `json.Unmarshal` outcome overwrites `err`. -/
def Client.Feedback (form : FeedbackForm) (transport : TransportFn) : OpResult FeedbackResp :=
  if form.DocIDs = none ∧ form.URLs = none then
    ((none, some (GoErr.validation "Requires at least one docid or url")), [])
  else if form.DocIDs ≠ none ∧ form.URLs ≠ none then
    ((none, some (GoErr.validation
      "Request must provide exactly one of the following fields: \x7b\x27DocIDs\x27, \x27URLs\x27\x7d")), [])
  else
    let out := transport (feedbackCall form)
    let d := unmarshalFeedbackResp out.res
    ((some d.1, d.2.map GoErr.decoding), [feedbackCall form])

/-! ### Claims -/

/-- C3: for every `TagRequest` and every `ColorRequest` whose URL sequence is
empty, the Tag (respectively Color) operation returns a `ValidationError`
("Requires at least one url") and performs no transport call. -/
theorem empty_urls_validation_error
    (treq : TagRequest) (creq : ColorRequest) (t : TransportFn)
    (ht : sliceLen treq.URLs = 0) (hc : sliceLen creq.URLs = 0) :
    Client.Tag treq t =
      ((none, some (GoErr.validation "Requires at least one url")), []) ∧
    Client.Color creq t =
      ((none, some (GoErr.validation "Requires at least one url")), []) := by
  constructor
  · simp [Client.Tag, ht]
  · simp [Client.Color, hc]

/-- C3 witness: a concrete empty-URL `TagRequest` (non-nil empty slice) and
`ColorRequest` (nil slice) are both rejected without any transport call. -/
theorem empty_urls_validation_error_witness :
    Client.Tag ⟨some [], some ["x"], "m"⟩ (fun _ => ⟨Raw.invalid, none⟩) =
      ((none, some (GoErr.validation "Requires at least one url")), []) ∧
    Client.Color ⟨none, none⟩ (fun _ => ⟨Raw.invalid, none⟩) =
      ((none, some (GoErr.validation "Requires at least one url")), []) :=
  empty_urls_validation_error ⟨some [], some ["x"], "m"⟩ ⟨none, none⟩ _ rfl rfl

/-- C10: any `TagRequest`/`ColorRequest` with at least one URL passes
validation and the transport call with the serialized body is attempted,
regardless of the `LocalIDs` length (even different from the URL count) and
of the `Model` value: only the URL count is checked client-side. -/
theorem nonempty_urls_transport_called
    (treq : TagRequest) (creq : ColorRequest) (t : TransportFn)
    (ht : 1 ≤ sliceLen treq.URLs) (hc : 1 ≤ sliceLen creq.URLs) :
    (Client.Tag treq t).2 = [tagCall treq] ∧
    (Client.Color creq t).2 = [colorCall creq] := by
  have ht' : ¬ sliceLen treq.URLs < 1 := by omega
  have hc' : ¬ sliceLen creq.URLs < 1 := by omega
  constructor
  · cases hout : (t (tagCall treq)).err <;> simp [Client.Tag, ht', hout]
  · cases hout : (t (colorCall creq)).err <;> simp [Client.Color, hc', hout]

/-- C10 witness: one URL with three local ids (a mismatched pairing) and a
nonsense model still reach the transport. -/
theorem nonempty_urls_transport_called_witness :
    (Client.Tag ⟨some ["u"], some ["a", "b", "c"], "no-such-model"⟩
        (fun _ => ⟨Raw.invalid, none⟩)).2 =
      [tagCall ⟨some ["u"], some ["a", "b", "c"], "no-such-model"⟩] ∧
    (Client.Color ⟨some ["u"], some ["a", "b", "c"]⟩
        (fun _ => ⟨Raw.invalid, none⟩)).2 =
      [colorCall ⟨some ["u"], some ["a", "b", "c"]⟩] :=
  nonempty_urls_transport_called _ _ _ (by decide) (by decide)

/-- C2 counterexample: a `FeedbackForm` whose `DocIDs` is a non-nil empty
slice and whose `URLs` is nil has both sets empty, yet `Feedback` does not
return a `ValidationError`: it performs the transport call and hands back the
decoded envelope with a nil error. -/
theorem feedback_both_empty_slices_not_rejected :
    sliceLen (some ([] : List String)) = 0 ∧ sliceLen none = 0 ∧
    Client.Feedback ⟨some [], none, none, none, none, none, none⟩
        (fun _ => ⟨Raw.json (Json.obj [("status_code", Json.str "OK"),
          ("status_msg", Json.str "")]), none⟩) =
      ((some ⟨"OK", ""⟩, none),
       [feedbackCall ⟨some [], none, none, none, none, none, none⟩]) :=
  ⟨rfl, rfl, rfl⟩

/-- C2 (amended): Feedback's mutual-exclusion check is on slice nil-ness, not
emptiness: for every `FeedbackForm` in which both the `DocIDs` and `URLs`
slices are nil, or both are non-nil, Feedback returns a `ValidationError`
and performs no transport call. -/
theorem feedback_nil_check_validation (form : FeedbackForm) (t : TransportFn)
    (h : (form.DocIDs = none ∧ form.URLs = none) ∨
         (form.DocIDs ≠ none ∧ form.URLs ≠ none)) :
    (∃ m, (Client.Feedback form t).1 = (none, some (GoErr.validation m))) ∧
    (Client.Feedback form t).2 = [] := by
  rcases h with ⟨h1, h2⟩ | ⟨h1, h2⟩
  · exact ⟨⟨"Requires at least one docid or url",
      by simp [Client.Feedback, h1, h2]⟩, by simp [Client.Feedback, h1, h2]⟩
  · refine ⟨⟨"Request must provide exactly one of the following fields: \x7b\x27DocIDs\x27, \x27URLs\x27\x7d", ?_⟩, ?_⟩ <;>
      simp [Client.Feedback, h1, h2]

/-- C2 witness: the all-nil form and a both-non-nil form are each rejected
without a transport call. -/
theorem feedback_nil_check_validation_witness :
    ((∃ m, (Client.Feedback ⟨none, none, none, none, none, none, none⟩
        (fun _ => ⟨Raw.invalid, none⟩)).1 = (none, some (GoErr.validation m))) ∧
     (Client.Feedback ⟨none, none, none, none, none, none, none⟩
        (fun _ => ⟨Raw.invalid, none⟩)).2 = []) ∧
    ((∃ m, (Client.Feedback ⟨some ["d"], some ["u"], none, none, none, none, none⟩
        (fun _ => ⟨Raw.invalid, none⟩)).1 = (none, some (GoErr.validation m))) ∧
     (Client.Feedback ⟨some ["d"], some ["u"], none, none, none, none, none⟩
        (fun _ => ⟨Raw.invalid, none⟩)).2 = []) :=
  ⟨feedback_nil_check_validation _ _ (Or.inl ⟨rfl, rfl⟩),
   feedback_nil_check_validation _ _ (Or.inr ⟨by decide, by decide⟩)⟩

/-- C4 counterexample: `DocIDs` is populated and `URLs` is an empty (but
non-nil) slice, so exactly one of the two sets is non-empty; the claim says
validation passes and the transport is called, but `Feedback` rejects the
form with the exclusivity `ValidationError` and performs no call. -/
theorem feedback_one_populated_rejected :
    0 < sliceLen (some ["d1"]) ∧ sliceLen (some ([] : List String)) = 0 ∧
    Client.Feedback ⟨some ["d1"], some [], none, none, none, none, none⟩
        (fun _ => ⟨Raw.invalid, none⟩) =
      ((none, some (GoErr.validation
        "Request must provide exactly one of the following fields: \x7b\x27DocIDs\x27, \x27URLs\x27\x7d")), []) :=
  ⟨by decide, rfl, rfl⟩

/-- C4 (amended): for every `FeedbackForm` in which exactly one of the
`DocIDs` and `URLs` slices is set (non-nil), whatever the optional fields
hold, validation passes and the transport call with the serialized form is
attempted. -/
theorem feedback_exactly_one_set_calls_transport (form : FeedbackForm) (t : TransportFn)
    (h : (form.DocIDs ≠ none ∧ form.URLs = none) ∨
         (form.DocIDs = none ∧ form.URLs ≠ none)) :
    (Client.Feedback form t).2 = [feedbackCall form] := by
  rcases h with ⟨h1, h2⟩ | ⟨h1, h2⟩ <;> simp [Client.Feedback, h1, h2]

/-- C4 witness: a docids-only form with assorted optional fields set, and a
urls-only bare form, both reach the transport. -/
theorem feedback_exactly_one_set_calls_transport_witness :
    (Client.Feedback ⟨some ["d"], none, some ["addme"], some [], none, some ["s1"], some ["q"]⟩
        (fun _ => ⟨Raw.invalid, none⟩)).2 =
      [feedbackCall ⟨some ["d"], none, some ["addme"], some [], none, some ["s1"], some ["q"]⟩] ∧
    (Client.Feedback ⟨none, some ["u"], none, none, none, none, none⟩
        (fun _ => ⟨Raw.invalid, none⟩)).2 =
      [feedbackCall ⟨none, some ["u"], none, none, none, none, none⟩] :=
  ⟨feedback_exactly_one_set_calls_transport _ _ (Or.inl ⟨by decide, rfl⟩),
   feedback_exactly_one_set_calls_transport _ _ (Or.inr ⟨rfl, by decide⟩)⟩

/-- C1 counterexample: the transport reports a failure, yet `Feedback`
(requests.go:172-177 never checks `err`) decodes the returned bytes anyway
and hands back a decoded envelope with a nil error — the transport failure is
discarded, not propagated. -/
theorem feedback_swallows_transport_failure :
    Client.Feedback ⟨some ["d"], none, none, none, none, none, none⟩
        (fun _ => ⟨Raw.json (Json.obj [("status_code", Json.str "ERROR"),
          ("status_msg", Json.str "partial")]), some (GoErr.transport "connection reset")⟩) =
      ((some ⟨"ERROR", "partial"⟩, none),
       [feedbackCall ⟨some ["d"], none, none, none, none, none, none⟩]) := rfl

/-- C1 (amended): when the transport fails, Info, Tag and Color return that
failure value unchanged with a nil envelope and never decode; Feedback
instead always decodes the raw bytes and returns the decode outcome,
discarding the transport failure. -/
theorem transport_failure_behavior
    (t : TransportFn) (e : GoErr)
    (treq : TagRequest) (creq : ColorRequest) (form : FeedbackForm)
    (ht : 1 ≤ sliceLen treq.URLs) (hc : 1 ≤ sliceLen creq.URLs)
    (hf : form.DocIDs ≠ none ∧ form.URLs = none)
    (hinfo : (t infoCall).err = some e)
    (htag : (t (tagCall treq)).err = some e)
    (hcol : (t (colorCall creq)).err = some e) :
    Client.Info t = ((none, some e), [infoCall]) ∧
    Client.Tag treq t = ((none, some e), [tagCall treq]) ∧
    Client.Color creq t = ((none, some e), [colorCall creq]) ∧
    Client.Feedback form t =
      ((some (unmarshalFeedbackResp (t (feedbackCall form)).res).1,
        (unmarshalFeedbackResp (t (feedbackCall form)).res).2.map GoErr.decoding),
       [feedbackCall form]) := by
  have ht' : ¬ sliceLen treq.URLs < 1 := by omega
  have hc' : ¬ sliceLen creq.URLs < 1 := by omega
  refine ⟨?_, ?_, ?_, ?_⟩
  · simp [Client.Info, hinfo]
  · simp [Client.Tag, ht', htag]
  · simp [Client.Color, hc', hcol]
  · simp [Client.Feedback, hf.1, hf.2]

/-- C1 witness: a transport that always fails with bytes that do not decode:
Info, Tag and Color return the failure unchanged; Feedback returns the
decode error instead of the transport failure. -/
theorem transport_failure_behavior_witness :
    Client.Info (fun _ => ⟨Raw.invalid, some (GoErr.transport "boom")⟩) =
      ((none, some (GoErr.transport "boom")), [infoCall]) ∧
    Client.Tag ⟨some ["u"], none, ""⟩ (fun _ => ⟨Raw.invalid, some (GoErr.transport "boom")⟩) =
      ((none, some (GoErr.transport "boom")), [tagCall ⟨some ["u"], none, ""⟩]) ∧
    Client.Color ⟨some ["u"], none⟩ (fun _ => ⟨Raw.invalid, some (GoErr.transport "boom")⟩) =
      ((none, some (GoErr.transport "boom")), [colorCall ⟨some ["u"], none⟩]) ∧
    Client.Feedback ⟨some ["d"], none, none, none, none, none, none⟩
        (fun _ => ⟨Raw.invalid, some (GoErr.transport "boom")⟩) =
      ((some (unmarshalFeedbackResp Raw.invalid).1,
        (unmarshalFeedbackResp Raw.invalid).2.map GoErr.decoding),
       [feedbackCall ⟨some ["d"], none, none, none, none, none, none⟩]) :=
  transport_failure_behavior _ (GoErr.transport "boom") ⟨some ["u"], none, ""⟩
    ⟨some ["u"], none⟩ ⟨some ["d"], none, none, none, none, none, none⟩
    (by decide) (by decide) ⟨by decide, rfl⟩ rfl rfl rfl

/-- C7: on transport success with bytes that decode cleanly into the
envelope, every operation returns the decoded envelope with a nil error;
the envelope's status code — whatever it is — is never turned into an error
by this layer. -/
theorem success_decode_returns_envelope_nil_error
    (t : TransportFn)
    (treq : TagRequest) (creq : ColorRequest) (form : FeedbackForm)
    (ht : 1 ≤ sliceLen treq.URLs) (hc : 1 ≤ sliceLen creq.URLs)
    (hf : form.DocIDs ≠ none ∧ form.URLs = none)
    (hie : (t infoCall).err = none)
    (hid : (unmarshalInfoResp (t infoCall).res).2 = none)
    (hte : (t (tagCall treq)).err = none)
    (htd : (unmarshalTagResp (t (tagCall treq)).res).2 = none)
    (hce : (t (colorCall creq)).err = none)
    (hcd : (unmarshalColorResp (t (colorCall creq)).res).2 = none)
    (_hfe : (t (feedbackCall form)).err = none)
    (hfd : (unmarshalFeedbackResp (t (feedbackCall form)).res).2 = none) :
    Client.Info t =
      ((some (unmarshalInfoResp (t infoCall).res).1, none), [infoCall]) ∧
    Client.Tag treq t =
      ((some (unmarshalTagResp (t (tagCall treq)).res).1, none), [tagCall treq]) ∧
    Client.Color creq t =
      ((some (unmarshalColorResp (t (colorCall creq)).res).1, none), [colorCall creq]) ∧
    Client.Feedback form t =
      ((some (unmarshalFeedbackResp (t (feedbackCall form)).res).1, none),
       [feedbackCall form]) := by
  have ht' : ¬ sliceLen treq.URLs < 1 := by omega
  have hc' : ¬ sliceLen creq.URLs < 1 := by omega
  refine ⟨?_, ?_, ?_, ?_⟩
  · simp [Client.Info, hie, hid]
  · simp [Client.Tag, ht', hte, htd]
  · simp [Client.Color, hc', hce, hcd]
  · simp [Client.Feedback, hf.1, hf.2, hfd]

/-- C7 witness: a transport that answers every call with an envelope whose
status code is the non-success `"PARTIAL"`; all four operations return the
decoded envelope and a nil error. -/
theorem success_decode_returns_envelope_nil_error_witness :
    Client.Info (fun _ => ⟨Raw.json (Json.obj [("status_code", Json.str "PARTIAL"),
        ("status_msg", Json.str "some failed")]), none⟩) =
      ((some ⟨"PARTIAL", "some failed", InfoResults.zero⟩, none), [infoCall]) ∧
    Client.Tag ⟨some ["u"], none, ""⟩
        (fun _ => ⟨Raw.json (Json.obj [("status_code", Json.str "PARTIAL"),
          ("status_msg", Json.str "some failed")]), none⟩) =
      ((some ⟨"PARTIAL", "some failed", TagMeta.zero, none⟩, none),
       [tagCall ⟨some ["u"], none, ""⟩]) ∧
    Client.Color ⟨some ["u"], none⟩
        (fun _ => ⟨Raw.json (Json.obj [("status_code", Json.str "PARTIAL"),
          ("status_msg", Json.str "some failed")]), none⟩) =
      ((some ⟨"PARTIAL", "some failed", none⟩, none), [colorCall ⟨some ["u"], none⟩]) ∧
    Client.Feedback ⟨some ["d"], none, none, none, none, none, none⟩
        (fun _ => ⟨Raw.json (Json.obj [("status_code", Json.str "PARTIAL"),
          ("status_msg", Json.str "some failed")]), none⟩) =
      ((some ⟨"PARTIAL", "some failed"⟩, none),
       [feedbackCall ⟨some ["d"], none, none, none, none, none, none⟩]) :=
  success_decode_returns_envelope_nil_error _ ⟨some ["u"], none, ""⟩ ⟨some ["u"], none⟩
    ⟨some ["d"], none, none, none, none, none, none⟩
    (by decide) (by decide) ⟨by decide, rfl⟩ rfl rfl rfl rfl rfl rfl rfl rfl

/-- C9: on transport success with bytes that do not decode, every operation
returns the decoding error together with a non-nil, zero/partially-populated
envelope pointer — never a nil envelope alongside the error. -/
theorem decode_failure_nonnil_envelope
    (t : TransportFn)
    (treq : TagRequest) (creq : ColorRequest) (form : FeedbackForm)
    (einfo etag ecol efb : String)
    (ht : 1 ≤ sliceLen treq.URLs) (hc : 1 ≤ sliceLen creq.URLs)
    (hf : form.DocIDs ≠ none ∧ form.URLs = none)
    (hie : (t infoCall).err = none)
    (hid : (unmarshalInfoResp (t infoCall).res).2 = some einfo)
    (hte : (t (tagCall treq)).err = none)
    (htd : (unmarshalTagResp (t (tagCall treq)).res).2 = some etag)
    (hce : (t (colorCall creq)).err = none)
    (hcd : (unmarshalColorResp (t (colorCall creq)).res).2 = some ecol)
    (_hfe : (t (feedbackCall form)).err = none)
    (hfd : (unmarshalFeedbackResp (t (feedbackCall form)).res).2 = some efb) :
    Client.Info t =
      ((some (unmarshalInfoResp (t infoCall).res).1, some (GoErr.decoding einfo)),
       [infoCall]) ∧
    Client.Tag treq t =
      ((some (unmarshalTagResp (t (tagCall treq)).res).1, some (GoErr.decoding etag)),
       [tagCall treq]) ∧
    Client.Color creq t =
      ((some (unmarshalColorResp (t (colorCall creq)).res).1, some (GoErr.decoding ecol)),
       [colorCall creq]) ∧
    Client.Feedback form t =
      ((some (unmarshalFeedbackResp (t (feedbackCall form)).res).1,
        some (GoErr.decoding efb)), [feedbackCall form]) := by
  have ht' : ¬ sliceLen treq.URLs < 1 := by omega
  have hc' : ¬ sliceLen creq.URLs < 1 := by omega
  refine ⟨?_, ?_, ?_, ?_⟩
  · simp [Client.Info, hie, hid]
  · simp [Client.Tag, ht', hte, htd]
  · simp [Client.Color, hc', hce, hcd]
  · simp [Client.Feedback, hf.1, hf.2, hfd]

/-- C9 witness: a transport that succeeds but returns bytes that are not
JSON; each operation returns its zero-valued envelope (a non-nil pointer)
together with the decoding error. -/
theorem decode_failure_nonnil_envelope_witness :
    Client.Info (fun _ => ⟨Raw.invalid, none⟩) =
      ((some InfoResp.zero, some (GoErr.decoding "unexpected end of JSON input")),
       [infoCall]) ∧
    Client.Tag ⟨some ["u"], none, ""⟩ (fun _ => ⟨Raw.invalid, none⟩) =
      ((some TagResp.zero, some (GoErr.decoding "unexpected end of JSON input")),
       [tagCall ⟨some ["u"], none, ""⟩]) ∧
    Client.Color ⟨some ["u"], none⟩ (fun _ => ⟨Raw.invalid, none⟩) =
      ((some ColorResp.zero, some (GoErr.decoding "unexpected end of JSON input")),
       [colorCall ⟨some ["u"], none⟩]) ∧
    Client.Feedback ⟨some ["d"], none, none, none, none, none, none⟩
        (fun _ => ⟨Raw.invalid, none⟩) =
      ((some FeedbackResp.zero, some (GoErr.decoding "unexpected end of JSON input")),
       [feedbackCall ⟨some ["d"], none, none, none, none, none, none⟩]) :=
  decode_failure_nonnil_envelope _ ⟨some ["u"], none, ""⟩ ⟨some ["u"], none⟩
    ⟨some ["d"], none, none, none, none, none, none⟩
    "unexpected end of JSON input" "unexpected end of JSON input"
    "unexpected end of JSON input" "unexpected end of JSON input"
    (by decide) (by decide) ⟨by decide, rfl⟩ rfl rfl rfl rfl rfl rfl rfl rfl

/-- C5: decoding a tag result whose numeric document identifier exceeds 2^63
neither overflows nor truncates: the decoded `DocID` is exactly the wire
value, the `docid_str` string form is carried through in `DocIDString`,
re-printing the decoded value recovers the wire literal, and no decode error
occurs. -/
theorem docid_arbitrary_precision (n : Nat) (hn : 2 ^ 63 < n) (u : String) :
    (decTagResult (Json.obj [("docid", Json.num (natRepr n)), ("url", Json.str u),
        ("docid_str", Json.str (natRepr n))])).1.DocID = some (n : Int) ∧
    (decTagResult (Json.obj [("docid", Json.num (natRepr n)), ("url", Json.str u),
        ("docid_str", Json.str (natRepr n))])).1.DocIDString = natRepr n ∧
    (decTagResult (Json.obj [("docid", Json.num (natRepr n)), ("url", Json.str u),
        ("docid_str", Json.str (natRepr n))])).1.DocID.map intRepr = some (natRepr n) ∧
    (decTagResult (Json.obj [("docid", Json.num (natRepr n)), ("url", Json.str u),
        ("docid_str", Json.str (natRepr n))])).2 = none := by
  have hp : parseInt (natRepr n) = some (n : Int) := parseInt_natRepr n (by omega)
  have hrepr : intRepr ((n : Nat) : Int) = natRepr n := by
    simp [intRepr]
  refine ⟨?_, ?_, ?_, ?_⟩ <;>
    simp [decTagResult, decField, lookupField, List.find?, decBigIntPtr, decGoString,
      firstErr, hp, hrepr]

/-- C5 witness: the identifier 2^63 + 1 = 9223372036854775809 (out of int64
range) decodes exactly. -/
theorem docid_arbitrary_precision_witness :
    (decTagResult (Json.obj [("docid", Json.num (natRepr 9223372036854775809)),
        ("url", Json.str "http://x/img.jpg"),
        ("docid_str", Json.str (natRepr 9223372036854775809))])).1.DocID =
      some ((9223372036854775809 : Nat) : Int) ∧
    (decTagResult (Json.obj [("docid", Json.num (natRepr 9223372036854775809)),
        ("url", Json.str "http://x/img.jpg"),
        ("docid_str", Json.str (natRepr 9223372036854775809))])).1.DocIDString =
      natRepr 9223372036854775809 ∧
    (decTagResult (Json.obj [("docid", Json.num (natRepr 9223372036854775809)),
        ("url", Json.str "http://x/img.jpg"),
        ("docid_str", Json.str (natRepr 9223372036854775809))])).1.DocID.map intRepr =
      some (natRepr 9223372036854775809) ∧
    (decTagResult (Json.obj [("docid", Json.num (natRepr 9223372036854775809)),
        ("url", Json.str "http://x/img.jpg"),
        ("docid_str", Json.str (natRepr 9223372036854775809))])).2 = none :=
  docid_arbitrary_precision 9223372036854775809 (by norm_num) "http://x/img.jpg"

/-- C6: serializing `TagRequest{URLs:["a","b"], LocalIDs:["1","2"]}` to the
wire format and decoding it back yields the same request: URL order and the
positional pairing of local ids to URLs are preserved. -/
theorem tagrequest_wire_roundtrip :
    unmarshalTagRequest (Raw.json (TagRequest.marshal ⟨some ["a", "b"], some ["1", "2"], ""⟩)) =
      (⟨some ["a", "b"], some ["1", "2"], ""⟩, none) := rfl

/-- Membership in the serialization of an `omitempty` slice field. -/
theorem mem_keys_omitemptySliceField (k : String) (x : Json) (key : String) (s : GoSlice) :
    (k, x) ∈ omitemptySliceField key s ↔
      k = key ∧ sliceLen s ≠ 0 ∧ x = marshalStringSlice s := by
  unfold omitemptySliceField
  split <;> simp_all

/-- Membership in the serialization of an `omitempty` string field. -/
theorem mem_keys_omitemptyStringField (k : String) (x : Json) (key v : String) :
    (k, x) ∈ omitemptyStringField key v ↔ k = key ∧ v ≠ "" ∧ x = Json.str v := by
  unfold omitemptyStringField
  split <;> simp_all

/-- C8: in every serialized request body, each unset optional field is
omitted entirely (never sent as null or empty), while the required `url`
field of Tag/Color requests is always present. -/
theorem omitempty_fields_omitted (r : TagRequest) (c : ColorRequest) (f : FeedbackForm) :
    ("url" ∈ (TagRequest.marshal r).keys ∧
     (sliceLen r.LocalIDs = 0 → "local_ids" ∉ (TagRequest.marshal r).keys) ∧
     (r.Model = "" → "model" ∉ (TagRequest.marshal r).keys)) ∧
    ("url" ∈ (ColorRequest.marshal c).keys ∧
     (sliceLen c.LocalIDs = 0 → "local_ids" ∉ (ColorRequest.marshal c).keys)) ∧
    ((sliceLen f.DocIDs = 0 → "docids" ∉ (FeedbackForm.marshal f).keys) ∧
     (sliceLen f.URLs = 0 → "url" ∉ (FeedbackForm.marshal f).keys) ∧
     (sliceLen f.AddTags = 0 → "add_tags" ∉ (FeedbackForm.marshal f).keys) ∧
     (sliceLen f.RemoveTags = 0 → "remove_tags" ∉ (FeedbackForm.marshal f).keys) ∧
     (sliceLen f.DissimilarDocIDs = 0 → "dissimilar_docids" ∉ (FeedbackForm.marshal f).keys) ∧
     (sliceLen f.SimilarDocIDs = 0 → "similar_docids" ∉ (FeedbackForm.marshal f).keys) ∧
     (sliceLen f.SearchClick = 0 → "search_click" ∉ (FeedbackForm.marshal f).keys)) := by
  refine ⟨⟨?_, ?_, ?_⟩, ⟨?_, ?_⟩, ?_, ?_, ?_, ?_, ?_, ?_, ?_⟩ <;>
      intros <;>
    simp_all [TagRequest.marshal, ColorRequest.marshal, FeedbackForm.marshal, Json.keys,
      mem_keys_omitemptySliceField, mem_keys_omitemptyStringField]

/-- C8 witness: a bare `TagRequest`, a `ColorRequest` with a non-nil empty
`LocalIDs`, and a urls-only `FeedbackForm`: the unset fields are absent and
`url` is present for Tag/Color. -/
theorem omitempty_fields_omitted_witness :
    ("url" ∈ (TagRequest.marshal ⟨none, none, ""⟩).keys ∧
     "local_ids" ∉ (TagRequest.marshal ⟨none, none, ""⟩).keys ∧
     "model" ∉ (TagRequest.marshal ⟨none, none, ""⟩).keys) ∧
    ("url" ∈ (ColorRequest.marshal ⟨some ["u"], some []⟩).keys ∧
     "local_ids" ∉ (ColorRequest.marshal ⟨some ["u"], some []⟩).keys) ∧
    ("docids" ∉ (FeedbackForm.marshal ⟨none, some ["u"], none, none, none, none, none⟩).keys ∧
     "add_tags" ∉ (FeedbackForm.marshal ⟨none, some ["u"], none, none, none, none, none⟩).keys) :=
  ⟨⟨(omitempty_fields_omitted ⟨none, none, ""⟩ ⟨some ["u"], some []⟩
      ⟨none, some ["u"], none, none, none, none, none⟩).1.1,
    (omitempty_fields_omitted ⟨none, none, ""⟩ ⟨some ["u"], some []⟩
      ⟨none, some ["u"], none, none, none, none, none⟩).1.2.1 rfl,
    (omitempty_fields_omitted ⟨none, none, ""⟩ ⟨some ["u"], some []⟩
      ⟨none, some ["u"], none, none, none, none, none⟩).1.2.2 rfl⟩,
   ⟨(omitempty_fields_omitted ⟨none, none, ""⟩ ⟨some ["u"], some []⟩
      ⟨none, some ["u"], none, none, none, none, none⟩).2.1.1,
    (omitempty_fields_omitted ⟨none, none, ""⟩ ⟨some ["u"], some []⟩
      ⟨none, some ["u"], none, none, none, none, none⟩).2.1.2 rfl⟩,
   ⟨(omitempty_fields_omitted ⟨none, none, ""⟩ ⟨some ["u"], some []⟩
      ⟨none, some ["u"], none, none, none, none, none⟩).2.2.1 rfl,
    (omitempty_fields_omitted ⟨none, none, ""⟩ ⟨some ["u"], some []⟩
      ⟨none, some ["u"], none, none, none, none, none⟩).2.2.2.2.1 rfl⟩⟩

end Clarifai
